import Mathlib

/-!
Shallow embedding of the Workspace Resolution Engine of the
`vscode-self-mcp` repository (file `src/vscode-controller.ts`).

The TypeScript class `VSCodeController` keeps a 5-second workspace cache
and resolves workspaces by reconciling three external signals: a window
list (`wmctrl -l -x`), a status dump (`code --status`), and the recent
workspace store (`~/.config/Code/User/workspaceStorage/STAR/workspace.json`).
External effects (subprocess output, filesystem access results) are
modelled as fields of an `Env` structure; the mutable cache becomes
explicit state passing over a `CacheState` value.  All string processing
mirrors the JavaScript semantics (`String.prototype.split` with a string
separator, `includes`, `startsWith`, `trim`, `toLowerCase`,
`split(/\s+/)`), implemented over `List Char` with structural recursion
so every definition evaluates by kernel reduction.
-/

/-- Character-level model of JavaScript `a.split(sep)` with a non-empty
string separator: scans left to right, cutting at each (non-overlapping)
occurrence of `sep`.  The `Nat` argument is recursion fuel; it is always
called with fuel strictly larger than the input length, which suffices
because every step consumes at least one character. -/
def chSplitF : Nat → List Char → List Char → List Char → List (List Char)
  | 0, _, l, acc => [acc.reverse ++ l]
  | fuel + 1, sep, l, acc =>
    match l with
    | [] => [acc.reverse]
    | c :: rest =>
      if sep.isPrefixOf (c :: rest) && !sep.isEmpty then
        acc.reverse :: chSplitF fuel sep (rest.drop (sep.length - 1)) []
      else
        chSplitF fuel sep rest (c :: acc)

/-- JavaScript `s.split(sep)` for a string separator.  Like in JS,
`"".split(sep) = [""]` and a separator absent from `s` yields `[s]`.
The (unused in the source) empty-separator case returns `[s]`. -/
def splitOnJS (s sep : String) : List String :=
  if sep.data.isEmpty then [s]
  else (chSplitF (s.data.length + 1) sep.data s.data []).map (fun l => String.mk l)

/-- All suffixes of a list, longest first (used to decide substring
containment). -/
def tailsList : List Char → List (List Char)
  | [] => [[]]
  | c :: rest => (c :: rest) :: tailsList rest

/-- JavaScript `s.includes(pat)`: `pat` occurs as a contiguous substring
of `s`. -/
def containsSubstr (s pat : String) : Bool :=
  (tailsList s.data).any (fun t => pat.data.isPrefixOf t)

/-- JavaScript `s.startsWith(p)`. -/
def strStartsWith (s p : String) : Bool :=
  p.data.isPrefixOf s.data

/-- JavaScript `s.toLowerCase()` (ASCII, which covers every string the
controller compares). -/
def strToLower (s : String) : String :=
  String.mk (s.data.map Char.toLower)

/-- JavaScript `s.trim()`: strip leading and trailing whitespace. -/
def strTrim (s : String) : String :=
  String.mk (((s.data.dropWhile Char.isWhitespace).reverse.dropWhile Char.isWhitespace).reverse)

/-- Drop the first `n` characters of a string (used to model
`folder.replace('file://', '')` under the guard that `folder` starts with
`file://`, where JS `replace` removes exactly that leading occurrence). -/
def strDrop (s : String) : Nat → String
  | n => String.mk (s.data.drop n)

/-- JavaScript `s.split(/\s+/)`: maximal whitespace runs separate the
tokens; a leading (resp. trailing) run contributes an empty first
(resp. last) token, exactly as in JS.  Fuel-based for kernel reduction;
always called with fuel larger than the input length. -/
def splitWSF : Nat → List Char → List Char → List String
  | 0, l, cur => [String.mk (cur.reverse ++ l)]
  | fuel + 1, l, cur =>
    match l with
    | [] => [String.mk cur.reverse]
    | c :: rest =>
      if c.isWhitespace then
        String.mk cur.reverse :: splitWSF fuel (rest.dropWhile Char.isWhitespace) []
      else
        splitWSF fuel rest (c :: cur)

/-- JavaScript `s.split(/\s+/)`. -/
def splitWS (s : String) : List String :=
  splitWSF (s.data.length + 1) s.data []

/-- JavaScript `arr.join(' ')`. -/
def joinSpace : List String → String
  | [] => ""
  | [s] => s
  | s :: rest => s ++ " " ++ joinSpace rest

/-- Source `extractWorkspaceFromTitle` (vscode-controller.ts lines 26-42):
split the window title on `" - "`; if at least two fragments, drop the
trailing product-name fragment; with two or more fragments left the
workspace is the last of them (second-to-last of the title), with exactly
one it is that fragment, otherwise no match (`null`). -/
def extractWorkspaceFromTitle (windowTitle : String) : Option String :=
  let parts := splitOnJS windowTitle " - "
  if 2 ≤ parts.length then
    let withoutVSCode := parts.dropLast
    if 2 ≤ withoutVSCode.length then
      some (strTrim (withoutVSCode.getLastD ""))
    else if withoutVSCode.length == 1 then
      some (strTrim (withoutVSCode.headD ""))
    else none
  else none

example : extractWorkspaceFromTitle "x.ts - proj1 - Visual Studio Code" = some "proj1" := by decide
example : extractWorkspaceFromTitle "proj2 - Visual Studio Code" = some "proj2" := by decide
example : extractWorkspaceFromTitle "Visual Studio Code" = none := by decide
example : splitWS " 0x1 0 code.Code host" = ["", "0x1", "0", "code.Code", "host"] := by decide

/-- A `{name, path}` workspace candidate (the element type of the
controller's workspace lists). -/
structure Workspace where
  name : String
  path : String
deriving DecidableEq, Repr

/-- One file under `~/.config/Code/User/workspaceStorage/STAR/workspace.json`.
`folder?` is the `folder` field of the decoded JSON; `none` stands for an
unreadable file, invalid JSON, or a record without a (truthy) `folder`
field — all of which the source skips via its per-file `try/catch`. -/
structure StorageRecord where
  folder? : Option String
deriving DecidableEq, Repr

/-- Last path segment, as computed by the source via
`workspacePath.split('/').pop() || ''`. -/
def lastSegment (path : String) : String :=
  (splitOnJS path "/").getLastD ""

/-- Parse one storage record the way the controller does everywhere it
reads the store: accept only records whose `folder` starts with
`file://`; the workspace path is the rest of the field and the display
name is its last segment. -/
def storageRecordPath (r : StorageRecord) : Option (String × String) :=
  match r.folder? with
  | some folder =>
    if strStartsWith folder "file://" then
      let path := strDrop folder 7
      some (path, lastSegment path)
    else none
  | none => none

/-- External-world inputs of the controller for one resolution request.
Subprocess invocations that the source lets throw are `Option`-valued
(`none` = the command failed); per-file read/parse failures are folded
into the record lists themselves. -/
structure Env where
  /-- stdout of `wmctrl -l -x`; `none` = the command threw. -/
  wmctrl : Option String
  /-- decoded `workspace.json` records found by the
  `ls ~/.config/Code/User/workspaceStorage/STAR/workspace.json` probe in
  `getOpenWorkspacesFast` (that probe ends in `|| echo ""`, so it cannot
  throw; an empty list models empty output). -/
  storage : List StorageRecord
  /-- stdout of `code --status`; `none` = the command threw. -/
  statusText : Option String
  /-- records found by the `find ~/.config/Code/User/workspaceStorage`
  probe in `findWorkspacePathByName`; `none` = the command threw. -/
  findStorage : Option (List StorageRecord)
  /-- result of `ls -d <pattern> 2>/dev/null | head -1` for a glob
  pattern: the first listed path, or `none` when the output is empty or
  the command threw. -/
  lsGlob : String → Option String
  /-- whether `access(path)` succeeds. -/
  pathExists : String → Bool
  /-- `process.cwd()` of the calling process. -/
  cwd : String
  /-- `process.env.HOME` (default `/home/ubuntu`). -/
  home : String
  /-- whether `access(join(dir, entry))` succeeds for a directory and a
  project-indicator entry. -/
  hasEntry : String → String → Bool
  /-- number of keys of `~/.vscode/settings.json` in the home directory:
  `none` = missing or invalid JSON, `some k` = parsed with `k` keys. -/
  homeSettingsKeys : Option Nat
  /-- records found by the `ls -t .../workspace.json` probe of the
  recent-workspace fallback, most recent first; `none` = the command
  threw. -/
  recent : Option (List StorageRecord)

/-- The controller's `workspaceCache` field: `none` until the first
successful fast build, then the stored index with its timestamp. -/
structure CacheState where
  cache : Option (List Workspace × Nat)
deriving DecidableEq, Repr

/-- `CACHE_DURATION` (vscode-controller.ts line 13). -/
def CACHE_DURATION : Nat := 5000

/-- Result of one `getOpenWorkspacesFast` call: the returned index, the
cache state after the call, and whether the external signal readers were
invoked (false exactly when a fresh cache entry was served). -/
structure FastResult where
  data : List Workspace
  state : CacheState
  invokedReaders : Bool
deriving DecidableEq, Repr

/-- The loop body of the window scan (lines 63-72 of the source): split
a window line on whitespace, re-join the fields from index 4 on into the
window title, run the title parser, and append the name unless it was
already collected. -/
def addWindowName (acc : List String) (window : String) : List String :=
  let parts := splitWS window
  if 4 < parts.length then
    let windowTitle := joinSpace (parts.drop 4)
    match extractWorkspaceFromTitle windowTitle with
    | some workspaceName =>
      if acc.contains workspaceName then acc else acc ++ [workspaceName]
    | none => acc
  else acc

/-- Names extracted from the `wmctrl -l -x` output (lines 56-74 of the
source): keep lines mentioning both `code.Code` and
`Visual Studio Code`, then collect the parsed workspace names in
first-seen order while skipping exact duplicates. -/
def collectWindowNames (out : String) : List String :=
  let vscodeWindows :=
    (splitOnJS out "\n").filter
      (fun l => containsSubstr l "code.Code" && containsSubstr l "Visual Studio Code")
  vscodeWindows.foldl addWindowName []

/-- Case-insensitive bidirectional substring correlation used by the
fast builder, `getWorkspaceInfo`, `openTerminalInWorkspace` and
`focusWorkspace`: one lowercased name contains the other. -/
def nameMatches (a b : String) : Bool :=
  containsSubstr (strToLower a) (strToLower b) ||
    containsSubstr (strToLower b) (strToLower a)

/-- The try-block body of `getOpenWorkspacesFast` after the wmctrl read
(lines 62-119): correlate every storage record whose display name
matches some displayed window name and whose path exists, in storage
order.  Note: the window-name list is deduplicated, the produced index
is not. -/
def fastBuild (env : Env) (out : String) : List Workspace :=
  let windowWorkspaceNames := collectWindowNames out
  env.storage.foldl
    (fun acc r =>
      match storageRecordPath r with
      | some (workspacePath, workspaceName) =>
        if windowWorkspaceNames.any (fun winName => nameMatches winName workspaceName) then
          if env.pathExists workspacePath then
            acc ++ [⟨workspaceName, workspacePath⟩]
          else acc
        else acc
      | none => acc)
    []

/-- Model of the regex `^\s*\|?\s*Folder \(([^)]+)\):` applied to a
status line (source line 157): optional whitespace, an optional `|`,
optional whitespace, the literal `Folder (`, a non-empty name up to the
closing parenthesis, then `):`. -/
def parseFolderLine (line : String) : Option String :=
  let s1 := line.data.dropWhile Char.isWhitespace
  let s2 :=
    match s1 with
    | '|' :: rest => rest.dropWhile Char.isWhitespace
    | _ => s1
  if ("Folder (".data).isPrefixOf s2 then
    let rest := s2.drop 8
    let nm := rest.takeWhile (fun c => c != ')')
    let rest2 := rest.dropWhile (fun c => c != ')')
    match rest2 with
    | ')' :: ':' :: _ => if nm.isEmpty then none else some (String.mk nm)
    | _ => none
  else none

/-- `/home/ubuntu/projects/STAR/STAR/name`, `/home/ubuntu/projects/STAR/name`,
`/home/ubuntu/name`: the fixed glob list of `findWorkspacePathByName`
(lines 213-217). -/
def searchPatterns (workspaceName : String) : List String :=
  ["/home/ubuntu/projects/*/*/" ++ workspaceName,
   "/home/ubuntu/projects/*/" ++ workspaceName,
   "/home/ubuntu/" ++ workspaceName]

/-- Source `findWorkspacePathByName` (lines 184-237): first an exact
trailing-segment match over the recent-workspace store (skipping records
whose path does not exist), then the fixed glob patterns probed via
`ls -d`, returning the first listed path that exists. -/
def findWorkspacePathByName (env : Env) (workspaceName : String) : Option String :=
  let viaStore : Option String :=
    match env.findStorage with
    | some recs =>
      recs.findSome?
        (fun r =>
          match storageRecordPath r with
          | some (workspacePath, pathName) =>
            if pathName == workspaceName && env.pathExists workspacePath then
              some workspacePath
            else none
          | none => none)
    | none => none
  match viaStore with
  | some p => some p
  | none =>
    (searchPatterns workspaceName).findSome?
      (fun pat =>
        match env.lsGlob pat with
        | some p => if env.pathExists p then some p else none
        | none => none)

/-- Source `parseVSCodeStatus` (lines 134-182): scan the status text line
by line; a line containing `Workspace Stats:` arms the section flag (and
is otherwise skipped); once armed, every line matching the folder regex
contributes a workspace whose path `findWorkspacePathByName` can
resolve, in line order. -/
def parseVSCodeStatus (env : Env) (statusOutput : String) : List Workspace :=
  ((splitOnJS statusOutput "\n").foldl
    (fun (st : Bool × List Workspace) line =>
      if containsSubstr line "Workspace Stats:" then (true, st.2)
      else if !st.1 then st
      else
        match parseFolderLine line with
        | some folderName =>
          (match findWorkspacePathByName env folderName with
           | some workspacePath => (true, st.2 ++ [⟨folderName, workspacePath⟩])
           | none => (true, st.2))
        | none => st)
    (false, [])).2

/-- The body of `getOpenWorkspacesFast` when no fresh cache entry is
served (lines 51-125): read `wmctrl`; on success build the fast index
and store it in the cache with the current time; on failure fall back to
`parseVSCodeStatusSlow` = `code --status` + `parseVSCodeStatus`, whose
result is returned without touching the cache — and whose own exec
failure propagates (modelled as `Except.error`). -/
def buildFreshly (env : Env) (now : Nat) (st : CacheState) : Except Unit FastResult :=
  match env.wmctrl with
  | some out =>
    let workspaces := fastBuild env out
    Except.ok ⟨workspaces, ⟨some (workspaces, now)⟩, true⟩
  | none =>
    match env.statusText with
    | some txt => Except.ok ⟨parseVSCodeStatus env txt, st, true⟩
    | none => Except.error ()

/-- Source `getOpenWorkspacesFast` (lines 44-126): serve the cached index
unchanged while its age is strictly below `CACHE_DURATION`, otherwise
rebuild via `buildFreshly`. -/
def getOpenWorkspacesFast (env : Env) (now : Nat) (st : CacheState) :
    Except Unit FastResult :=
  match st.cache with
  | some (data, ts) =>
    if now - ts < CACHE_DURATION then Except.ok ⟨data, st, false⟩
    else buildFreshly env now st
  | none => buildFreshly env now st

/-- Source `getAllWorkspaces` (lines 603-625), keeping the returned
workspace list and cache state (the cosmetic display text is omitted):
a failure of `getOpenWorkspacesFast` is caught and re-thrown as an
error, not converted to an empty index. -/
def getAllWorkspaces (env : Env) (now : Nat) (st : CacheState) :
    Except String (List Workspace × CacheState) :=
  match getOpenWorkspacesFast env now st with
  | Except.ok r => Except.ok (r.data, r.state)
  | Except.error _ => Except.error "Failed to get workspaces"

/-- Model of Node `path.posix.dirname`: skip trailing slashes, then the
last segment; the character index of the slash found there (never index
0, which the source loop excludes) cuts the string.  `//a` yields `//`
and a string without an eligible slash yields `/` or `.` according to
whether it is rooted, exactly as in Node. -/
def dirnameStr (p : String) : String :=
  match p.data with
  | [] => "."
  | c0 :: tl =>
    let l := c0 :: tl
    let hasRoot := c0 == '/'
    let r1 := l.reverse.dropWhile (fun c => c == '/')
    let r2 := r1.dropWhile (fun c => c != '/')
    if r2.length ≤ 1 then
      if hasRoot then "/" else "."
    else if hasRoot && r2.length - 1 == 1 then "//"
    else String.mk (l.take (r2.length - 1))

example : dirnameStr "/home/u/proj" = "/home/u" := by decide
example : dirnameStr "/a" = "/" := by decide
example : dirnameStr "a" = "." := by decide
example : dirnameStr "a//b" = "a/" := by decide

/-- The project-indicator entries probed by approach 2 of
`getActiveVSCodeWorkspace` (line 274). -/
def indicators : List String :=
  [".git", "package.json", "Cargo.toml", "go.mod", "pom.xml", "pyproject.toml", ".vscode"]

/-- The `.vscode`-in-home gate (lines 281-294): the home settings file
must exist, parse, and have at least one key. -/
def homeVscodeOk (env : Env) : Bool :=
  match env.homeSettingsKeys with
  | some k => k != 0
  | none => false

/-- Whether the indicator scan of approach 2 accepts directory `dir`:
some indicator entry is present, where a `.vscode` entry in the home
directory additionally needs a non-empty settings file. -/
def checkDirB (env : Env) (dir : String) : Bool :=
  indicators.any
    (fun ind =>
      env.hasEntry dir ind &&
        (if ind == ".vscode" && dir == env.home then homeVscodeOk env else true))

/-- The `while (currentDir !== rootDir)` walk of approach 2 (lines
267-312): stop at `/`, return the first directory accepted by the
indicator scan, move to the parent, and stop when `dirname` reaches a
fixed point.  Fuel-based; the caller passes fuel exceeding the walk
length. -/
def walkUp (env : Env) : Nat → String → Option String
  | 0, _ => none
  | fuel + 1, dir =>
    if dir == "/" then none
    else if checkDirB env dir then some dir
    else
      let parent := dirnameStr dir
      if parent == dir then none
      else walkUp env fuel parent

/-- The directories the approach-2 walk visits, in visit order
(independent of which indicators exist). -/
def walkDirs : Nat → String → List String
  | 0, _ => []
  | fuel + 1, dir =>
    if dir == "/" then []
    else
      dir ::
        (let parent := dirnameStr dir
         if parent == dir then [] else walkDirs fuel parent)

example : walkDirs 6 "/a/b" = ["/a/b", "/a"] := by decide

/-- Approach 3 (lines 315-338): the three most recent storage records;
return the first whose `folder` field parses and whose path still
exists. -/
def recentPick (env : Env) : Option String :=
  match env.recent with
  | none => none
  | some recs =>
    (recs.take 3).findSome?
      (fun r =>
        match storageRecordPath r with
        | some (workspacePath, _) =>
          if env.pathExists workspacePath then some workspacePath else none
        | none => none)

/-- Approaches 2-4 of `getActiveVSCodeWorkspace`: the indicator walk,
then the recent-workspace store, then `process.cwd()` unchanged. -/
def fallbackResolve (env : Env) : String :=
  match walkUp env (env.cwd.data.length + 2) env.cwd with
  | some dir => dir
  | none =>
    match recentPick env with
    | some p => p
    | none => env.cwd

/-- Source `getActiveVSCodeWorkspace` (lines 239-347).  Approach 1: run
the (cached) fast index builder; when it throws, fall through to the
fallback chain.  On a non-empty index return the first candidate whose
path is a raw string prefix of `process.cwd()`, else the first
candidate.  On an empty index, or a builder failure, resolve through
approaches 2-4.  The result pairs the chosen path with the cache state
after the call; the function is total — `resolveActiveWorkspace` never
fails. -/
def getActiveVSCodeWorkspace (env : Env) (now : Nat) (st : CacheState) :
    String × CacheState :=
  match getOpenWorkspacesFast env now st with
  | Except.ok r =>
    match r.data with
    | [] => (fallbackResolve env, r.state)
    | w0 :: _ =>
      match r.data.find? (fun w => strStartsWith env.cwd w.path) with
      | some w => (w.path, r.state)
      | none => (w0.path, r.state)
  | Except.error _ => (fallbackResolve env, st)

/-- The candidate search of `getWorkspaceInfo` (lines 640-643): first
index entry related to the requested name by the case-insensitive
bidirectional substring policy. -/
def findWorkspaceMatch (workspaces : List Workspace) (workspaceName : String) :
    Option Workspace :=
  workspaces.find? (fun w => nameMatches w.name workspaceName)

/-- The distinguishable not-found outcome of `getWorkspaceInfo`: the
thrown error message carries the requested name and the names that were
available. -/
structure NotFoundInfo where
  requested : String
  available : List String
deriving DecidableEq, Repr

/-- The lookup half of `getWorkspaceInfo` (lines 638-649): return the
matched candidate, or the not-found outcome listing every available
name. -/
def getWorkspaceInfoLookup (workspaces : List Workspace) (workspaceName : String) :
    Except NotFoundInfo Workspace :=
  match findWorkspaceMatch workspaces workspaceName with
  | some w => Except.ok w
  | none => Except.error ⟨workspaceName, workspaces.map (fun w => w.name)⟩

/-- Source `getWorkspaceInfo` composed with the cached builder: a
builder failure is re-thrown as a distinct error (`Except.error none`),
a lookup failure carries the not-found information. -/
def getWorkspaceInfo (env : Env) (now : Nat) (st : CacheState) (workspaceName : String) :
    Except (Option NotFoundInfo) (Workspace × CacheState) :=
  match getOpenWorkspacesFast env now st with
  | Except.ok r =>
    match getWorkspaceInfoLookup r.data workspaceName with
    | Except.ok w => Except.ok (w, r.state)
    | Except.error e => Except.error (some e)
  | Except.error _ => Except.error none

/-- A neutral environment: every external signal unavailable, every
filesystem probe negative except bare path existence, caller at `/`. -/
def baseEnv : Env :=
  { wmctrl := none
    storage := []
    statusText := none
    findStorage := none
    lsGlob := fun _ => none
    pathExists := fun _ => true
    cwd := "/"
    home := "/home/ubuntu"
    hasEntry := fun _ _ => false
    homeSettingsKeys := none
    recent := none }

/-- One open window titled `proj - Visual Studio Code` and one storage
record for `/home/u/proj`; the caller sits inside that workspace. -/
def envPrefixHit : Env :=
  { baseEnv with
    wmctrl := some "0x1 0 code.Code host proj - Visual Studio Code"
    storage := [⟨some "file:///home/u/proj"⟩]
    cwd := "/home/u/proj/sub" }

/-- Window enumeration succeeds but shows no editor window, the storage
is empty, no indicator exists anywhere, the recent store read fails, and
the caller sits at `/a/b`. -/
def envBareCwd : Env :=
  { baseEnv with
    wmctrl := some ""
    cwd := "/a/b" }

/-- Two distinct storage records pointing at the same folder
`/home/u/proj`, with a matching open window. -/
def envDupStorage : Env :=
  { baseEnv with
    wmctrl := some "0x1 0 code.Code host proj - Visual Studio Code"
    storage := [⟨some "file:///home/u/proj"⟩, ⟨some "file:///home/u/proj"⟩] }

/-- Window enumeration throws; the status command succeeds (with output
carrying no workspace section). -/
def envSlowOnly : Env :=
  { baseEnv with
    statusText := some "" }

/-- Window enumeration succeeds but shows no editor window, while the
status command would report folder `deb-helper`, resolvable through the
recent-workspace store. -/
def envEmptyWindows : Env :=
  { baseEnv with
    wmctrl := some ""
    statusText := some "Version: 1.0\nWorkspace Stats:\n|  Folder (deb-helper): 2 files\n"
    findStorage := some [⟨some "file:///home/u/deb-helper"⟩] }

/-- Both the window enumeration and the status command throw. -/
def envBothFail : Env :=
  { baseEnv with
    wmctrl := none
    statusText := none }

/-- A candidate at `/home/u/proj` while the caller works in the sibling
directory `/home/u/project-x`, of which `/home/u/proj` is a raw string
prefix but not a filesystem ancestor. -/
def envRawPrefix : Env :=
  { baseEnv with
    wmctrl := some "0x1 0 code.Code host proj - Visual Studio Code"
    storage := [⟨some "file:///home/u/proj"⟩]
    cwd := "/home/u/project-x" }

example :
    getOpenWorkspacesFast envPrefixHit 0 ⟨none⟩ =
      Except.ok ⟨[⟨"proj", "/home/u/proj"⟩],
        ⟨some ([⟨"proj", "/home/u/proj"⟩], 0)⟩, true⟩ := rfl
example : getOpenWorkspacesFast envBareCwd 0 ⟨none⟩ =
    Except.ok ⟨[], ⟨some ([], 0)⟩, true⟩ := rfl
example : (getActiveVSCodeWorkspace envBareCwd 0 ⟨none⟩).1 = "/a/b" := rfl
example :
    getOpenWorkspacesFast envDupStorage 0 ⟨none⟩ =
      Except.ok ⟨[⟨"proj", "/home/u/proj"⟩, ⟨"proj", "/home/u/proj"⟩],
        ⟨some ([⟨"proj", "/home/u/proj"⟩, ⟨"proj", "/home/u/proj"⟩], 0)⟩, true⟩ := rfl
example : getOpenWorkspacesFast envSlowOnly 0 ⟨none⟩ =
    Except.ok ⟨[], ⟨none⟩, true⟩ := rfl
example : getOpenWorkspacesFast envEmptyWindows 0 ⟨none⟩ =
    Except.ok ⟨[], ⟨some ([], 0)⟩, true⟩ := rfl
example :
    parseVSCodeStatus envEmptyWindows "Version: 1.0\nWorkspace Stats:\n|  Folder (deb-helper): 2 files\n" =
      [⟨"deb-helper", "/home/u/deb-helper"⟩] := rfl
example : getAllWorkspaces envBothFail 0 ⟨none⟩ =
    Except.error "Failed to get workspaces" := rfl
example : (getActiveVSCodeWorkspace envRawPrefix 0 ⟨none⟩).1 = "/home/u/proj" := rfl

/-- If no visited directory passes the indicator scan, the approach-2
walk finds nothing, whatever the fuel. -/
theorem walkUp_eq_none (env : Env) :
    ∀ (fuel : Nat) (dir : String),
      (∀ d ∈ walkDirs fuel dir, checkDirB env d = false) →
      walkUp env fuel dir = none := by
  intro fuel
  induction fuel with
  | zero => intro dir _; rfl
  | succ n ih =>
    intro dir h
    by_cases hroot : dir = "/"
    · simp [walkUp, hroot]
    · have hmem : dir ∈ walkDirs (n + 1) dir := by
        simp [walkDirs, hroot]
      have hdir : checkDirB env dir = false := h dir hmem
      by_cases hpar : dirnameStr dir = dir
      · simp [walkUp, hroot, hdir, hpar]
      · have htail : ∀ d ∈ walkDirs n (dirnameStr dir), checkDirB env d = false := by
          intro d hd
          refine h d ?_
          simp [walkDirs, hroot, hpar]
          exact Or.inr hd
        simp [walkUp, hroot, hdir, hpar, ih (dirnameStr dir) htail]

/-- A directory without any project-indicator entry fails the indicator
scan. -/
theorem checkDirB_eq_false (env : Env) (dir : String)
    (h : ∀ ind ∈ indicators, env.hasEntry dir ind = false) :
    checkDirB env dir = false := by
  unfold checkDirB
  rw [List.any_eq_false]
  intro ind hind
  simp [h ind hind]

/-- The empty pattern is a substring of every string (the JS
`s.includes("")` behaviour the bidirectional matcher inherits). -/
theorem containsSubstr_empty (s : String) : containsSubstr s "" = true := by
  unfold containsSubstr
  have hdata : ("" : String).data = [] := rfl
  rw [hdata]
  cases s.data with
  | nil => rfl
  | cons c rest => simp [tailsList, List.isPrefixOf]

/-- One window-scan step keeps the collected name list duplicate-free. -/
theorem addWindowName_nodup (acc : List String) (window : String)
    (h : acc.Nodup) : (addWindowName acc window).Nodup := by
  unfold addWindowName
  by_cases hlen : 4 < (splitWS window).length
  · simp only [hlen, if_true]
    cases hx : extractWorkspaceFromTitle (joinSpace ((splitWS window).drop 4)) with
    | none => exact h
    | some workspaceName =>
      by_cases hmem : workspaceName ∈ acc
      · simp [hmem, h]
      · have hc : acc.contains workspaceName = false := by simpa using hmem
        show (if acc.contains workspaceName = true then acc else acc ++ [workspaceName]).Nodup
        rw [hc]
        simp only [Bool.false_eq_true, if_false]
        exact List.Nodup.append h (List.nodup_singleton workspaceName)
          (fun a ha hb => hmem ((List.mem_singleton.mp hb) ▸ ha))
  · simp [hlen, h]

/-- The window scan produces a duplicate-free name list from any start
that is duplicate-free. -/
theorem foldl_addWindowName_nodup :
    ∀ (l : List String) (acc : List String), acc.Nodup →
      (l.foldl addWindowName acc).Nodup := by
  intro l
  induction l with
  | nil => intro acc h; exact h
  | cons x xs ih => intro acc h; exact ih _ (addWindowName_nodup acc x h)

/-- Claim C1: for every workspace index the cached builder returns and
every caller current directory, if some candidate's path is a string
prefix of the caller's current directory, then `getActiveVSCodeWorkspace`
returns the path of a candidate with that prefix property, regardless of
where the candidate sits in the index ordering (with several such
candidates the source loop picks the first, so the result is stated as
the path of some prefix-matching member of the index). -/
theorem claim_C1_prefix_selects_candidate
    (env : Env) (now : Nat) (st : CacheState) (r : FastResult) (w : Workspace)
    (hfast : getOpenWorkspacesFast env now st = Except.ok r)
    (hw : w ∈ r.data)
    (hpre : strStartsWith env.cwd w.path = true) :
    ∃ w', w' ∈ r.data ∧ strStartsWith env.cwd w'.path = true ∧
      (getActiveVSCodeWorkspace env now st).1 = w'.path := by
  have hsome : (r.data.find? (fun x => strStartsWith env.cwd x.path)).isSome := by
    rw [List.find?_isSome]
    exact ⟨w, hw, hpre⟩
  obtain ⟨w', hw'⟩ := Option.isSome_iff_exists.mp hsome
  have hmem := List.mem_of_find?_eq_some hw'
  have hp : strStartsWith env.cwd w'.path = true := by
    simpa using List.find?_some hw'
  refine ⟨w', hmem, hp, ?_⟩
  unfold getActiveVSCodeWorkspace
  simp only [hfast]
  cases hdata : r.data with
  | nil => rw [hdata] at hw; cases hw
  | cons w0 t =>
    simp only [hdata]
    rw [hdata] at hw'
    simp [hw']

/-- Witness for C1 at a concrete input: one open workspace
`/home/u/proj`, caller inside it at `/home/u/proj/sub`. -/
theorem claim_C1_witness :
    ∃ w', w' ∈ ([⟨"proj", "/home/u/proj"⟩] : List Workspace) ∧
      strStartsWith envPrefixHit.cwd w'.path = true ∧
      (getActiveVSCodeWorkspace envPrefixHit 0 ⟨none⟩).1 = w'.path :=
  claim_C1_prefix_selects_candidate envPrefixHit 0 ⟨none⟩
    ⟨[⟨"proj", "/home/u/proj"⟩], ⟨some ([⟨"proj", "/home/u/proj"⟩], 0)⟩, true⟩
    ⟨"proj", "/home/u/proj"⟩ rfl (by decide) (by decide)

/-- Claim C2: `getActiveVSCodeWorkspace` is total (it has type
`String × CacheState`, so it returns a path and never raises), and when
the candidate index it obtains is empty, no project-indicator entry
exists in any directory the upward walk from the caller's current
directory visits, and the recent-workspace store is unreadable or empty,
it returns the caller's current directory exactly. -/
theorem claim_C2_bare_cwd_fallback
    (env : Env) (now : Nat) (st : CacheState) (r : FastResult)
    (hfast : getOpenWorkspacesFast env now st = Except.ok r)
    (hempty : r.data = [])
    (hwalk : ∀ d ∈ walkDirs (env.cwd.data.length + 2) env.cwd,
      ∀ ind ∈ indicators, env.hasEntry d ind = false)
    (hrecent : env.recent = none ∨ env.recent = some []) :
    (getActiveVSCodeWorkspace env now st).1 = env.cwd := by
  unfold getActiveVSCodeWorkspace
  rw [hfast]
  simp only [hempty]
  show (fallbackResolve env, r.state).1 = env.cwd
  unfold fallbackResolve
  rw [walkUp_eq_none env _ _
    (fun d hd => checkDirB_eq_false env d (fun ind hind => hwalk d hd ind hind))]
  rcases hrecent with h | h <;> simp [recentPick, h]

/-- Witness for C2 at a concrete input: empty index, bare directories,
unreadable recent store, caller at `/a/b`. -/
theorem claim_C2_witness :
    (getActiveVSCodeWorkspace envBareCwd 0 ⟨none⟩).1 = envBareCwd.cwd :=
  claim_C2_bare_cwd_fallback envBareCwd 0 ⟨none⟩ ⟨[], ⟨some ([], 0)⟩, true⟩
    rfl rfl (by decide) (Or.inl rfl)

/-- Counterexample to C3: two distinct storage records for the same
folder `/home/u/proj`, correlated with one open window, make
`getOpenWorkspacesFast` return a non-empty index in which two entries
share the same path — the builder performs no deduplication by path. -/
theorem claim_C3_counterexample :
    getOpenWorkspacesFast envDupStorage 0 ⟨none⟩ =
      Except.ok ⟨[⟨"proj", "/home/u/proj"⟩, ⟨"proj", "/home/u/proj"⟩],
        ⟨some ([⟨"proj", "/home/u/proj"⟩, ⟨"proj", "/home/u/proj"⟩], 0)⟩, true⟩ ∧
    ¬ (([⟨"proj", "/home/u/proj"⟩, ⟨"proj", "/home/u/proj"⟩] : List Workspace).map
        Workspace.path).Nodup :=
  ⟨rfl, by decide⟩

/-- Claim C3 as amended: the index builder deduplicates the displayed
workspace names it parses from window titles (first-seen order, exact
string equality), but it does not deduplicate the produced index by
path — distinct storage records with the same folder yield duplicate
entries. -/
theorem claim_C3_window_names_nodup (out : String) :
    (collectWindowNames out).Nodup := by
  unfold collectWindowNames
  exact foldl_addWindowName_nodup _ [] List.nodup_nil

/-- Counterexample to C4: with no stored cache entry and a failing
window enumeration, the builder runs and returns the slow-path result,
but the cache state after the call is still empty — the new result is
not stored with the current timestamp. -/
theorem claim_C4_counterexample :
    getOpenWorkspacesFast envSlowOnly 0 ⟨none⟩ =
      Except.ok ⟨[], ⟨none⟩, true⟩ ∧
    (⟨none⟩ : CacheState) ≠ ⟨some (([] : List Workspace), 0)⟩ :=
  ⟨rfl, by decide⟩

/-- Claim C4 as amended: a stored entry younger than the TTL is served
unchanged without invoking any signal reader; on a rebuild the result is
stored with the current timestamp only when the fast window path
succeeds (a slow-path fallback result is returned without being
stored), and then a second call within the TTL window returns the
identical data without re-invoking the readers. -/
theorem claim_C4_cache_contract :
    (∀ (env : Env) (now : Nat) (st : CacheState) (data : List Workspace) (ts : Nat),
      st.cache = some (data, ts) → now - ts < CACHE_DURATION →
      getOpenWorkspacesFast env now st = Except.ok ⟨data, st, false⟩) ∧
    (∀ (env : Env) (now now2 : Nat) (st : CacheState) (r : FastResult),
      getOpenWorkspacesFast env now st = Except.ok r →
      r.invokedReaders = true →
      env.wmctrl.isSome = true →
      now2 - now < CACHE_DURATION →
      getOpenWorkspacesFast env now2 r.state = Except.ok ⟨r.data, r.state, false⟩) := by
  constructor
  · intro env now st data ts hcache hfresh
    unfold getOpenWorkspacesFast
    rw [hcache]
    simp [hfresh]
  · intro env now now2 st r h1 hinv hw hfresh
    obtain ⟨out, hout⟩ := Option.isSome_iff_exists.mp hw
    have hstate : r.state.cache = some (r.data, now) := by
      unfold getOpenWorkspacesFast buildFreshly at h1
      rw [hout] at h1
      cases hc : st.cache with
      | none =>
        rw [hc] at h1
        cases h1
        rfl
      | some p =>
        obtain ⟨d, ts⟩ := p
        rw [hc] at h1
        by_cases hf : now - ts < CACHE_DURATION
        · simp only [if_pos hf] at h1
          cases h1
          cases hinv
        · simp only [if_neg hf] at h1
          cases h1
          rfl
    unfold getOpenWorkspacesFast
    rw [hstate]
    simp [hfresh]

/-- Witness for C4 as amended: a fresh entry is served unchanged, and a
second call 3 milliseconds after a fast rebuild serves the stored
index without invoking the readers. -/
theorem claim_C4_witness :
    getOpenWorkspacesFast baseEnv 3 ⟨some ([⟨"p", "/p"⟩], 0)⟩ =
      Except.ok ⟨[⟨"p", "/p"⟩], ⟨some ([⟨"p", "/p"⟩], 0)⟩, false⟩ ∧
    getOpenWorkspacesFast envPrefixHit 3 ⟨some ([⟨"proj", "/home/u/proj"⟩], 0)⟩ =
      Except.ok ⟨[⟨"proj", "/home/u/proj"⟩],
        ⟨some ([⟨"proj", "/home/u/proj"⟩], 0)⟩, false⟩ :=
  ⟨claim_C4_cache_contract.1 baseEnv 3 ⟨some ([⟨"p", "/p"⟩], 0)⟩ [⟨"p", "/p"⟩] 0
      rfl (by decide),
   claim_C4_cache_contract.2 envPrefixHit 0 3 ⟨none⟩
      ⟨[⟨"proj", "/home/u/proj"⟩], ⟨some ([⟨"proj", "/home/u/proj"⟩], 0)⟩, true⟩
      rfl rfl rfl (by decide)⟩

/-- Claim C5: for a window title of the three-fragment form
`A - B - ProductName` (made precise as: splitting the title on the
separator yields exactly the fragments `[A, B, P]`, with the middle
fragment already trimmed) the title parser returns `B`; for the
two-fragment form it returns `A`; with no separator at all it returns
the no-match result `none`. -/
theorem claim_C5_title_fragments :
    (∀ (t A B P : String), splitOnJS t " - " = [A, B, P] → strTrim B = B →
      extractWorkspaceFromTitle t = some B) ∧
    (∀ (t A P : String), splitOnJS t " - " = [A, P] → strTrim A = A →
      extractWorkspaceFromTitle t = some A) ∧
    (∀ t : String, splitOnJS t " - " = [t] → extractWorkspaceFromTitle t = none) := by
  refine ⟨?_, ?_, ?_⟩
  · intro t A B P hsplit htrim
    unfold extractWorkspaceFromTitle
    rw [hsplit]
    simp [htrim]
  · intro t A P hsplit htrim
    unfold extractWorkspaceFromTitle
    rw [hsplit]
    simp [htrim]
  · intro t hsplit
    unfold extractWorkspaceFromTitle
    rw [hsplit]
    simp

/-- Witness for C5 on the spec's own examples. -/
theorem claim_C5_witness :
    extractWorkspaceFromTitle "x.ts - proj1 - Visual Studio Code" = some "proj1" ∧
    extractWorkspaceFromTitle "proj2 - Visual Studio Code" = some "proj2" ∧
    extractWorkspaceFromTitle "Visual Studio Code" = none :=
  ⟨claim_C5_title_fragments.1 "x.ts - proj1 - Visual Studio Code" "x.ts" "proj1"
      "Visual Studio Code" (by decide) (by decide),
   claim_C5_title_fragments.2.1 "proj2 - Visual Studio Code" "proj2"
      "Visual Studio Code" (by decide) (by decide),
   claim_C5_title_fragments.2.2 "Visual Studio Code" (by decide)⟩

/-- Counterexample to C6: window enumeration succeeds with zero editor
windows, so step 1 yields no displayed names, yet the builder returns
(and caches) the empty fast-path index instead of falling back to the
slow path — even though the status reader would have produced the
`deb-helper` workspace, resolvable through the store. -/
theorem claim_C6_counterexample :
    getOpenWorkspacesFast envEmptyWindows 0 ⟨none⟩ =
      Except.ok ⟨[], ⟨some ([], 0)⟩, true⟩ ∧
    parseVSCodeStatus envEmptyWindows
        "Version: 1.0\nWorkspace Stats:\n|  Folder (deb-helper): 2 files\n" =
      [⟨"deb-helper", "/home/u/deb-helper"⟩] :=
  ⟨rfl, rfl⟩

/-- Claim C6 as amended: the builder falls back to the slow path exactly
when the fast window enumeration throws (not when it merely yields an
empty list): with a stale cache, a failing `wmctrl` and an available
status command, it returns the result of parsing the status text for
Folder lines, each name resolved by `findWorkspacePathByName` (exact
trailing-segment match against the store, then the fixed glob
patterns), without storing that result in the cache. -/
theorem claim_C6_fallback_on_throw
    (env : Env) (now : Nat) (st : CacheState) (txt : String)
    (hstale : ∀ data ts, st.cache = some (data, ts) → ¬ now - ts < CACHE_DURATION)
    (hwm : env.wmctrl = none)
    (hstatus : env.statusText = some txt) :
    getOpenWorkspacesFast env now st =
      Except.ok ⟨parseVSCodeStatus env txt, st, true⟩ := by
  unfold getOpenWorkspacesFast buildFreshly
  cases hc : st.cache with
  | none => rw [hwm, hstatus]
  | some p =>
    obtain ⟨d, ts⟩ := p
    simp only [if_neg (hstale d ts hc)]
    rw [hwm, hstatus]

/-- Witness for C6 as amended at a concrete input. -/
theorem claim_C6_witness :
    getOpenWorkspacesFast envSlowOnly 0 ⟨none⟩ =
      Except.ok ⟨parseVSCodeStatus envSlowOnly "", ⟨none⟩, true⟩ :=
  claim_C6_fallback_on_throw envSlowOnly 0 ⟨none⟩ ""
    (fun _ _ h => Option.noConfusion h) rfl rfl

/-- Counterexample to C7: when both the window enumeration and the
status command fail, `getAllWorkspaces` does not return an empty index
— the exception escapes the readers, is caught at the top of
`getAllWorkspaces`, and is re-thrown as an error to the caller. -/
theorem claim_C7_counterexample :
    getAllWorkspaces envBothFail 0 ⟨none⟩ =
      Except.error "Failed to get workspaces" := rfl

/-- Claim C7 as amended: `getAllWorkspaces` returns a (possibly empty)
workspace index whenever the window enumeration succeeds or the status
command succeeds; only when both signal readers fail does the error
propagate to the caller instead of degrading to an empty index. -/
theorem claim_C7_ok_unless_both_fail
    (env : Env) (now : Nat) (st : CacheState)
    (h : env.wmctrl.isSome = true ∨ env.statusText.isSome = true) :
    ∃ out, getAllWorkspaces env now st = Except.ok out := by
  have hbuild : ∃ r, buildFreshly env now st = Except.ok r := by
    unfold buildFreshly
    cases hw : env.wmctrl with
    | some o => exact ⟨_, rfl⟩
    | none =>
      cases hs : env.statusText with
      | some txt => exact ⟨_, rfl⟩
      | none =>
        rcases h with h | h
        · rw [hw] at h; cases h
        · rw [hs] at h; cases h
  unfold getAllWorkspaces getOpenWorkspacesFast
  cases hc : st.cache with
  | none =>
    obtain ⟨r, hr⟩ := hbuild
    rw [hr]
    exact ⟨_, rfl⟩
  | some p =>
    obtain ⟨d, ts⟩ := p
    by_cases hf : now - ts < CACHE_DURATION
    · simp only [if_pos hf]
      exact ⟨_, rfl⟩
    · simp only [if_neg hf]
      obtain ⟨r, hr⟩ := hbuild
      rw [hr]
      exact ⟨_, rfl⟩

/-- Witness for C7 as amended: the status command alone suffices. -/
theorem claim_C7_witness :
    ∃ out, getAllWorkspaces envSlowOnly 0 ⟨none⟩ = Except.ok out :=
  claim_C7_ok_unless_both_fail envSlowOnly 0 ⟨none⟩ (Or.inr rfl)

/-- Claim C8: the lookup of `getWorkspaceInfo` uses the case-insensitive
bidirectional substring policy `nameMatches`; when no candidate in the
index matches the requested name it returns the distinguishable
not-found outcome carrying exactly the names that were available, and
when a match exists it returns a matching candidate of the index. -/
theorem claim_C8_lookup (workspaces : List Workspace) (workspaceName : String) :
    ((¬ ∃ w ∈ workspaces, nameMatches w.name workspaceName = true) →
      getWorkspaceInfoLookup workspaces workspaceName =
        Except.error ⟨workspaceName, workspaces.map (fun w => w.name)⟩) ∧
    ((∃ w ∈ workspaces, nameMatches w.name workspaceName = true) →
      ∃ w, w ∈ workspaces ∧ nameMatches w.name workspaceName = true ∧
        getWorkspaceInfoLookup workspaces workspaceName = Except.ok w) := by
  constructor
  · intro hnone
    unfold getWorkspaceInfoLookup findWorkspaceMatch
    have hfind : workspaces.find? (fun w => nameMatches w.name workspaceName) = none := by
      rw [List.find?_eq_none]
      intro x hx hpx
      exact hnone ⟨x, hx, hpx⟩
    rw [hfind]
  · intro hex
    obtain ⟨w, hw, hp⟩ := hex
    have hsome : (workspaces.find? (fun w => nameMatches w.name workspaceName)).isSome := by
      rw [List.find?_isSome]
      exact ⟨w, hw, hp⟩
    obtain ⟨w', hw'⟩ := Option.isSome_iff_exists.mp hsome
    have hmem := List.mem_of_find?_eq_some hw'
    have hp' : nameMatches w'.name workspaceName = true := by
      simpa using List.find?_some hw'
    refine ⟨w', hmem, hp', ?_⟩
    unfold getWorkspaceInfoLookup findWorkspaceMatch
    rw [hw']

/-- Witness for C8: against the index `[proj1, proj2]`, looking up
`proj1` finds it and looking up `zzz` yields not-found with the full
name list. -/
theorem claim_C8_witness :
    getWorkspaceInfoLookup
        [⟨"proj1", "/home/u/proj1"⟩, ⟨"proj2", "/home/u/proj2"⟩] "zzz" =
      Except.error ⟨"zzz", ["proj1", "proj2"]⟩ ∧
    ∃ w, w ∈ ([⟨"proj1", "/home/u/proj1"⟩, ⟨"proj2", "/home/u/proj2"⟩] : List Workspace) ∧
      nameMatches w.name "proj1" = true ∧
      getWorkspaceInfoLookup
          [⟨"proj1", "/home/u/proj1"⟩, ⟨"proj2", "/home/u/proj2"⟩] "proj1" =
        Except.ok w :=
  ⟨(claim_C8_lookup [⟨"proj1", "/home/u/proj1"⟩, ⟨"proj2", "/home/u/proj2"⟩] "zzz").1
      (by decide),
   (claim_C8_lookup [⟨"proj1", "/home/u/proj1"⟩, ⟨"proj2", "/home/u/proj2"⟩] "proj1").2
      (by decide)⟩

/-- Claim C9 (implicit): the active-workspace prefix test is a raw
string-prefix check, not a path-component-boundary check.  Concretely:
the builder yields the single candidate `/home/u/proj` while the caller
works in `/home/u/project-x`, which is not a filesystem descendant of
the candidate (it is neither equal to it nor an extension of it across a
`/` boundary), yet the candidate path is a character prefix of the
caller directory, and the selector returns `/home/u/proj` at step 1. -/
theorem claim_C9_raw_prefix_check :
    getOpenWorkspacesFast envRawPrefix 0 ⟨none⟩ =
      Except.ok ⟨[⟨"proj", "/home/u/proj"⟩],
        ⟨some ([⟨"proj", "/home/u/proj"⟩], 0)⟩, true⟩ ∧
    strStartsWith envRawPrefix.cwd "/home/u/proj" = true ∧
    envRawPrefix.cwd ≠ "/home/u/proj" ∧
    strStartsWith envRawPrefix.cwd "/home/u/proj/" = false ∧
    (getActiveVSCodeWorkspace envRawPrefix 0 ⟨none⟩).1 = "/home/u/proj" :=
  ⟨rfl, by decide, by decide, by decide, rfl⟩

/-- Claim C10 (implicit): because the lookup policy is bidirectional
substring inclusion and the empty string is a substring of every name,
`getWorkspaceInfoLookup` applied to a non-empty index and the empty
string never yields the not-found outcome — it returns the first
candidate of the index. -/
theorem claim_C10_empty_name_matches_head (w : Workspace) (t : List Workspace) :
    getWorkspaceInfoLookup (w :: t) "" = Except.ok w := by
  have hp : (fun x : Workspace => nameMatches x.name "") w = true := by
    show nameMatches w.name "" = true
    unfold nameMatches
    have h1 : strToLower "" = "" := rfl
    rw [h1, containsSubstr_empty]
    rfl
  unfold getWorkspaceInfoLookup findWorkspaceMatch
  rw [List.find?_cons_of_pos t hp]

/-- Witness for the amended C3 at a concrete window listing with two
windows showing the same workspace name. -/
theorem claim_C3_witness :
    (collectWindowNames
      "0x1 0 code.Code host proj - Visual Studio Code\n0x2 0 code.Code host a.ts - proj - Visual Studio Code").Nodup :=
  claim_C3_window_names_nodup
    "0x1 0 code.Code host proj - Visual Studio Code\n0x2 0 code.Code host a.ts - proj - Visual Studio Code"

/-- Witness for C10 at a concrete one-element index. -/
theorem claim_C10_witness :
    getWorkspaceInfoLookup [⟨"proj1", "/home/u/proj1"⟩] "" =
      Except.ok ⟨"proj1", "/home/u/proj1"⟩ :=
  claim_C10_empty_name_matches_head ⟨"proj1", "/home/u/proj1"⟩ []
